import Mathlib

/-!
Shallow embedding of drivers/input/touchscreen/ili2117.c: the packet layout
(struct finger / struct touchdata), the slot-report loop
(ili2117_report_events), the deferred-work read cycle (ili2117_work), the
interrupt handler (ili2117_irq) and the device teardown (ili2117_i2c_remove),
together with the delayed-work scheduling state they share.
Bytes are modelled as Nat; the i2c bus is a function from a requested length
to an optional byte list (none = failed transfer).
-/

namespace Ili2117

def MAX_TOUCHES : Nat := 10

def DEFAULT_POLL_PERIOD : Nat := 20

def X_MAX : Nat := 2047

def Y_MAX : Nat := 2047

/-- struct finger: `u8 y_hi:4; u8 x_hi:4; u8 x_lo; u8 y_lo; u8 c_sum;`
`__packed`.  The two 4-bit bitfields share a single byte (little-endian
allocation: `y_hi` is the low nibble, `x_hi` the high nibble), so the record
occupies 4 bytes on the wire. -/
structure Finger where
  y_hi : Nat
  x_hi : Nat
  x_lo : Nat
  y_lo : Nat
  c_sum : Nat
deriving Repr, DecidableEq

/-- struct touchdata: `u8 packet_id; struct finger finger[10]; u8 key:4;
u8 p_sensor:4; u8 checksum;` `__packed`. -/
structure Touchdata where
  packet_id : Nat
  finger : List Finger
  key : Nat
  p_sensor : Nat
  checksum : Nat
deriving Repr, DecidableEq

/-- `sizeof(struct finger)`: one byte holding both nibbles, then
`x_lo`, `y_lo`, `c_sum`. -/
def sizeofFinger : Nat := 4

/-- `sizeof(struct touchdata)`: packet_id (1) + 10 packed finger records +
the packed key/p_sensor byte (1) + checksum (1). -/
def sizeofTouchdata : Nat := 1 + MAX_TOUCHES * sizeofFinger + 1 + 1

def defaultFinger : Finger := ⟨0, 0, 0, 0, 0⟩

/-- Overlaying 4 wire bytes onto `struct finger` (little-endian bitfield
allocation: first-declared `y_hi` takes the low nibble of byte 0). -/
def decodeFinger (bs : List Nat) : Finger :=
  { y_hi := bs.getD 0 0 % 16
    x_hi := bs.getD 0 0 / 16
    x_lo := bs.getD 1 0
    y_lo := bs.getD 2 0
    c_sum := bs.getD 3 0 }

def decodeFingers (bs : List Nat) : List Finger :=
  (List.range MAX_TOUCHES).map fun i =>
    decodeFinger ((bs.drop (i * sizeofFinger)).take sizeofFinger)

/-- Overlaying a completed i2c read of `sizeof(struct touchdata)` bytes onto
`struct touchdata`.  The transfer either delivers the full requested buffer
or fails, so a buffer of any other length decodes to nothing. -/
def decode (bs : List Nat) : Option Touchdata :=
  if bs.length = sizeofTouchdata then
    some { packet_id := bs.getD 0 0
           finger := decodeFingers (bs.drop 1)
           key := bs.getD 41 0 % 16
           p_sensor := bs.getD 41 0 / 16
           checksum := bs.getD 42 0 }
  else
    none

/-- One emitted multitouch slot report: either
`input_mt_report_slot_state(.., true)` followed by the two
`input_report_abs` positions, or `input_mt_report_slot_state(.., false)`
with no position. -/
inductive SlotEvent where
  | touching (slot : Nat) (x : Nat) (y : Nat)
  | released (slot : Nat)
deriving Repr, DecidableEq

def SlotEvent.isTouch : SlotEvent → Bool
  | .touching _ _ _ => true
  | .released _ => false

def SlotEvent.slotIdx : SlotEvent → Nat
  | .touching s _ _ => s
  | .released s => s

def fingerAt (td : Touchdata) (i : Nat) : Finger :=
  td.finger.getD i defaultFinger

/-- `x = finger->x_lo | (finger->x_hi << 8)` (ili2117.c line 76). -/
def coordX (f : Finger) : Nat := f.x_lo ||| (f.x_hi <<< 8)

/-- `y = finger->y_lo | (finger->y_hi << 8)` (ili2117.c line 77). -/
def coordY (f : Finger) : Nat := f.y_lo ||| (f.y_hi <<< 8)

/-- `touch = (touchdata->packet_id == 0x5a) && (touchdata->checksum != 0xff)
&& (finger->c_sum != 0xff)` (ili2117.c lines 71-73). -/
def slotTouch (td : Touchdata) (f : Finger) : Bool :=
  (td.packet_id == 0x5a) && (td.checksum != 0xff) && (f.c_sum != 0xff)

/-- Body of one iteration of the report loop for slot `i`. -/
def reportSlot (td : Touchdata) (i : Nat) : SlotEvent :=
  let f := fingerAt td i
  if slotTouch td f then
    SlotEvent.touching i (coordX f) (coordY f)
  else
    SlotEvent.released i

/-- ili2117_report_events: `for (i = 0; i < MAX_TOUCHES; i++)` emitting one
slot report per slot, in slot order. -/
def reportEvents (td : Touchdata) : List SlotEvent :=
  (List.range MAX_TOUCHES).map (reportSlot td)

/-- ili2117_read: a single i2c read message of `len` bytes; the transfer
returns the buffer or fails (-EIO). -/
def ili2117_read (bus : Nat → Option (List Nat)) (len : Nat) :
    Option (List Nat) :=
  bus len

/-- Continuation decision at the end of ili2117_work:
`if (touchdata.packet_id == 0x5a) schedule_delayed_work(.., poll_period)`. -/
def ili2117_reschedule (td : Touchdata) (poll_period : Nat) : Option Nat :=
  if td.packet_id = 0x5a then some poll_period else none

/-- Outcome of one execution of the work function: whether an error was
logged with dev_err, the slot events pushed to the input core (none when the
cycle was abandoned), and the delay of the one requested follow-up read
(none when no further read is requested). -/
structure WorkResult where
  logged : Bool
  events : Option (List SlotEvent)
  reschedule : Option Nat
deriving Repr, DecidableEq

/-- ili2117_work: read `sizeof(touchdata)` bytes; on failure log and return
with nothing reported and nothing rescheduled; on success report all slots
and reschedule after `poll_period` exactly when `packet_id == 0x5a`. -/
def ili2117_work (bus : Nat → Option (List Nat)) (poll_period : Nat) :
    WorkResult :=
  match ili2117_read bus sizeofTouchdata with
  | none => { logged := true, events := none, reschedule := none }
  | some bs =>
    match decode bs with
    | none => { logged := true, events := none, reschedule := none }
    | some td =>
      { logged := false
        events := some (reportEvents td)
        reschedule := ili2117_reschedule td poll_period }

/-- Per-device scheduling state.  `pending` counts the queued instances of
`priv->dwork` (the host workqueue keeps at most one: `schedule_delayed_work`
is a no-op while the work is already pending); `delay` is the delay the
pending instance was queued with; `irqArmed` records whether the handler
installed by `request_irq` is still installed; `freed` records that
`ili2117_i2c_remove` has released the device. -/
structure Sys where
  pending : Nat
  delay : Nat
  irqArmed : Bool
  freed : Bool
  poll_period : Nat
deriving Repr, DecidableEq

/-- schedule_delayed_work: queue the work with the given delay if it is not
already pending, otherwise leave the existing request in place (returns
whether the work was newly queued). -/
def schedule_delayed_work (s : Sys) (d : Nat) : Sys × Bool :=
  if s.pending = 0 then ({ s with pending := 1, delay := d }, true)
  else (s, false)

/-- State right after `ili2117_i2c_probe`: nothing queued, IRQ handler
installed, `poll_period = DEFAULT_POLL_PERIOD`. -/
def sysInit : Sys :=
  { pending := 0, delay := 0, irqArmed := true, freed := false
    poll_period := DEFAULT_POLL_PERIOD }

/-- Observable actions of one scheduler step: a transport read being
performed, a batch of slot events handed to the input core, or a dev_err
log line. -/
inductive Obs where
  | read
  | emit (events : List SlotEvent)
  | log
deriving Repr, DecidableEq

def Obs.isRead : Obs → Bool
  | .read => true
  | _ => false

def Obs.isEmit : Obs → Bool
  | .emit _ => true
  | _ => false

def countReads (l : List Obs) : Nat := l.countP Obs.isRead

/-- ili2117_irq: the handler only calls
`schedule_delayed_work(&priv->dwork, 0)` and returns IRQ_HANDLED; it
performs no read, no decode and no reporting.  A delivery after `free_irq`
cannot happen (the handler is gone), modelled as a no-op. -/
def irqStep (s : Sys) : Sys × List Obs :=
  if s.irqArmed then ((schedule_delayed_work s 0).1, [])
  else (s, [])

/-- The pending delayed work's timer fires and the worker runs
`ili2117_work`: the pending bit is cleared before the callback runs, the
read is performed, and on success the slots are reported and the work may
requeue itself. -/
def expireStep (s : Sys) (bus : Nat → Option (List Nat)) : Sys × List Obs :=
  if s.pending = 0 then (s, [])
  else
    let s0 : Sys := { s with pending := s.pending - 1 }
    let wr := ili2117_work bus s.poll_period
    let s1 : Sys :=
      match wr.reschedule with
      | some d => (schedule_delayed_work s0 d).1
      | none => s0
    (s1,
      Obs.read ::
        (match wr.events with
         | some es => [Obs.emit es]
         | none => [Obs.log]))

/-- External stimuli: an interrupt delivery, or the pending work's timer
expiring with `bus` describing how the i2c transfer behaves at that moment. -/
inductive Ev where
  | irq
  | expire (bus : Nat → Option (List Nat))

def sysStep (s : Sys) (e : Ev) : Sys × List Obs :=
  match e with
  | .irq => irqStep s
  | .expire bus => expireStep s bus

def sysRun (s : Sys) (evs : List Ev) : Sys × List Obs :=
  match evs with
  | [] => (s, [])
  | e :: rest =>
    let p := sysStep s e
    let q := sysRun p.1 rest
    (q.1, p.2 ++ q.2)

/-- Modelled from the spec: `free_irq` and `cancel_delayed_work_sync` are
host-kernel primitives whose bodies are not under src/.  Per spec section 5,
teardown (a) first prevents any new read from being requested (free_irq),
then (b) synchronously joins any queued or in-flight read cycle — the
joined cycle runs to completion, emitting its observations, before remove
returns — and finally clears any self-requeue and releases the device. -/
def ili2117_i2c_remove (s : Sys) (bus : Nat → Option (List Nat)) :
    Sys × List Obs :=
  let s1 : Sys := { s with irqArmed := false }
  if s1.pending = 0 then ({ s1 with freed := true }, [])
  else
    let p := expireStep s1 bus
    ({ p.1 with pending := 0, freed := true }, p.2)

/-! ### Concrete example data used by the witnesses -/

/-- A valid finger record: coordinates (100, 200), real checksum. -/
def fingerA : Finger :=
  { y_hi := 0, x_hi := 0, x_lo := 100, y_lo := 200, c_sum := 1 }

/-- A valid touch frame: finger 0 active, fingers 1-9 carrying the 0xff
sentinel checksum. -/
def tdA : Touchdata :=
  { packet_id := 0x5a
    finger := fingerA :: List.replicate 9 { defaultFinger with c_sum := 0xff }
    key := 0
    p_sensor := 0
    checksum := 1 }

/-- The same frame as `tdA` except for the key/p_sensor byte and the
coordinate bytes of the released (sentinel-checksum) fingers. -/
def tdB : Touchdata :=
  { packet_id := 0x5a
    finger := fingerA ::
      List.replicate 9 { y_hi := 3, x_hi := 7, x_lo := 9, y_lo := 9, c_sum := 0xff }
    key := 5
    p_sensor := 3
    checksum := 1 }

/-- The 43-byte wire image of `tdA`. -/
def bsA : List Nat :=
  0x5a :: ([0, 100, 200, 1] ++ (List.replicate 9 [0, 0, 0, 0xff]).flatten ++ [0, 1])

/-- A bus on which every transfer delivers the `tdA` frame bytes. -/
def busA : Nat → Option (List Nat) := fun _ => some bsA

/-- A bus that only answers a transfer of exactly `sizeofTouchdata` bytes. -/
def busB : Nat → Option (List Nat) :=
  fun n => if n = sizeofTouchdata then some bsA else none

/-- A bus on which every transfer fails. -/
def busNone : Nat → Option (List Nat) := fun _ => none

/-- The probe-time state with one read pending (as right after an
interrupt has fired). -/
def sysActive : Sys := { sysInit with pending := 1 }

/-! ### Helper lemmas -/

lemma reportEvents_getD (td : Touchdata) (i : Nat) (h : i < MAX_TOUCHES)
    (d : SlotEvent) : (reportEvents td).getD i d = reportSlot td i := by
  simp [reportEvents, List.getD, List.getElem?_map, List.getElem?_range h]

lemma slotIdx_reportSlot (td : Touchdata) (i : Nat) :
    (reportSlot td i).slotIdx = i := by
  by_cases h : slotTouch td (fingerAt td i) <;>
    simp [reportSlot, h, SlotEvent.slotIdx]

/-! ### C1 -/

/-- C1: for every decoded frame and every slot index i in 0..9, the slot is
reported as touching iff `packet_id == 0x5a`, the whole-frame checksum is
not 0xff, and finger i's checksum is not 0xff; in every other case slot i is
reported as released, regardless of finger i's own data. -/
theorem slot_touch_iff (td : Touchdata) (i : Nat) (h : i < MAX_TOUCHES) :
    (((reportEvents td).getD i (SlotEvent.released i)).isTouch = true ↔
      td.packet_id = 0x5a ∧ td.checksum ≠ 0xff ∧
        (fingerAt td i).c_sum ≠ 0xff) ∧
    (¬(td.packet_id = 0x5a ∧ td.checksum ≠ 0xff ∧
        (fingerAt td i).c_sum ≠ 0xff) →
      (reportEvents td).getD i (SlotEvent.released i) = SlotEvent.released i) := by
  rw [reportEvents_getD td i h]
  by_cases h1 : td.packet_id = 0x5a <;>
    by_cases h2 : td.checksum = 0xff <;>
      by_cases h3 : (fingerAt td i).c_sum = 0xff <;>
        simp [reportSlot, slotTouch, h1, h2, h3, SlotEvent.isTouch]

/-- C1 witness: slot 0 of the concrete valid frame `tdA` is touching. -/
theorem slot_touch_iff_witness :
    (0 < MAX_TOUCHES) ∧
    ((((reportEvents tdA).getD 0 (SlotEvent.released 0)).isTouch = true ↔
        tdA.packet_id = 0x5a ∧ tdA.checksum ≠ 0xff ∧
          (fingerAt tdA 0).c_sum ≠ 0xff) ∧
      (¬(tdA.packet_id = 0x5a ∧ tdA.checksum ≠ 0xff ∧
          (fingerAt tdA 0).c_sum ≠ 0xff) →
        (reportEvents tdA).getD 0 (SlotEvent.released 0) = SlotEvent.released 0)) :=
  ⟨by decide, slot_touch_iff tdA 0 (by decide)⟩

/-! ### C3 -/

/-- C3: every call of the report loop emits exactly one slot event per slot
index 0..9, in ascending slot-index order, for all 10 slots — a complete
10-slot snapshot. -/
theorem report_full_snapshot (td : Touchdata) :
    (reportEvents td).map SlotEvent.slotIdx = List.range MAX_TOUCHES ∧
    (reportEvents td).length = MAX_TOUCHES := by
  constructor
  · rw [reportEvents, List.map_map]
    have h : ∀ a ∈ List.range MAX_TOUCHES,
        (SlotEvent.slotIdx ∘ reportSlot td) a = id a := fun a _ =>
      slotIdx_reportSlot td a
    rw [List.map_congr_left h, List.map_id]
  · simp [reportEvents]

/-! ### C4 -/

/-- C4 counterexample: the reconstructed coordinate of a finger record with
`x_hi = 15`, `x_lo = 255` is 4095, which does not lie in [0, 2047] — the
code performs no clamping and the raw 4-bit high nibble reaches 2047 < x. -/
theorem coord_bound_counterexample :
    coordX { y_hi := 0, x_hi := 15, x_lo := 255, y_lo := 0, c_sum := 0 } = 4095 ∧
    ¬(coordX { y_hi := 0, x_hi := 15, x_lo := 255, y_lo := 0, c_sum := 0 } ≤ 2047) := by
  decide

lemma lor_shift_eq_add (hi lo : Nat) (h : lo < 256) :
    lo ||| (hi <<< 8) = lo + 256 * hi := by
  have h2 : lo < 2 ^ 8 := by norm_num [h]
  calc lo ||| (hi <<< 8) = (hi <<< 8) ||| lo := Nat.lor_comm _ _
    _ = 2 ^ 8 * hi ||| lo := by rw [Nat.shiftLeft_eq, Nat.mul_comm]
    _ = 2 ^ 8 * hi + lo := (Nat.mul_add_lt_is_or h2 hi).symm
    _ = lo + 256 * hi := by norm_num [Nat.add_comm]

/-- C4 (amended): the decoded coordinates are reconstructed exactly as
`x = x_lo | (x_hi << 8)` and `y = y_lo | (y_hi << 8)` with no clamping
(the value equals `x_lo + 256 * x_hi` exactly), and for all `x_hi` in
[0,15] and `x_lo` in [0,255] the reconstructed value lies in [0, 4095]
(a 12-bit space; values up to 4095, not 2047, are representable). -/
theorem coord_reconstruction (f : Finger)
    (hxh : f.x_hi ≤ 15) (hxl : f.x_lo ≤ 255)
    (hyh : f.y_hi ≤ 15) (hyl : f.y_lo ≤ 255) :
    coordX f = f.x_lo + 256 * f.x_hi ∧
    coordY f = f.y_lo + 256 * f.y_hi ∧
    coordX f ≤ 4095 ∧ coordY f ≤ 4095 := by
  have hx := lor_shift_eq_add f.x_hi f.x_lo (by omega)
  have hy := lor_shift_eq_add f.y_hi f.y_lo (by omega)
  refine ⟨hx, hy, ?_, ?_⟩
  · rw [coordX, hx]; omega
  · rw [coordY, hy]; omega

/-- C4 witness: the amended statement at a concrete in-range finger
record. -/
theorem coord_reconstruction_witness :
    let f : Finger := { y_hi := 1, x_hi := 2, x_lo := 100, y_lo := 200, c_sum := 1 }
    coordX f = f.x_lo + 256 * f.x_hi ∧
    coordY f = f.y_lo + 256 * f.y_hi ∧
    coordX f ≤ 4095 ∧ coordY f ≤ 4095 :=
  coord_reconstruction
    { y_hi := 1, x_hi := 2, x_lo := 100, y_lo := 200, c_sum := 1 }
    (by decide) (by decide) (by decide) (by decide)

/-! ### C10 -/

/-- C10: two frames agreeing on packet_id, the frame checksum, every
finger's checksum byte, and the coordinate bytes of every finger whose
checksum is not 0xff, produce identical slot-event sequences and identical
reschedule decisions; the key/p_sensor byte and the coordinates of
sentinel-checksum fingers never influence the output, and a released slot
carries no position. -/
theorem output_determined (td₁ td₂ : Touchdata) (p : Nat)
    (hid : td₁.packet_id = td₂.packet_id)
    (hck : td₁.checksum = td₂.checksum)
    (hcs : ∀ i, i < MAX_TOUCHES →
      (fingerAt td₁ i).c_sum = (fingerAt td₂ i).c_sum)
    (hco : ∀ i, i < MAX_TOUCHES → (fingerAt td₁ i).c_sum ≠ 0xff →
      (fingerAt td₁ i).x_lo = (fingerAt td₂ i).x_lo ∧
      (fingerAt td₁ i).x_hi = (fingerAt td₂ i).x_hi ∧
      (fingerAt td₁ i).y_lo = (fingerAt td₂ i).y_lo ∧
      (fingerAt td₁ i).y_hi = (fingerAt td₂ i).y_hi) :
    reportEvents td₁ = reportEvents td₂ ∧
    ili2117_reschedule td₁ p = ili2117_reschedule td₂ p ∧
    (∀ i, slotTouch td₁ (fingerAt td₁ i) = false →
      reportSlot td₁ i = SlotEvent.released i) := by
  refine ⟨?_, ?_, ?_⟩
  · rw [reportEvents, reportEvents]
    apply List.map_congr_left
    intro i hi
    have hi' : i < MAX_TOUCHES := List.mem_range.1 hi
    have hst : slotTouch td₁ (fingerAt td₁ i) = slotTouch td₂ (fingerAt td₂ i) := by
      rw [slotTouch, slotTouch, hid, hck, hcs i hi']
    by_cases hb : slotTouch td₁ (fingerAt td₁ i)
    · have hcne : (fingerAt td₁ i).c_sum ≠ 0xff := by
        rw [slotTouch] at hb
        simp only [Bool.and_eq_true, bne_iff_ne] at hb
        exact hb.2
      obtain ⟨h1, h2, h3, h4⟩ := hco i hi' hcne
      rw [reportSlot, reportSlot, if_pos hb, if_pos (hst ▸ hb)]
      rw [coordX, coordX, coordY, coordY, h1, h2, h3, h4]
    · rw [reportSlot, reportSlot]
      rw [if_neg (by simpa using hb), if_neg (by rw [← hst]; simpa using hb)]
  · rw [ili2117_reschedule, ili2117_reschedule, hid]
  · intro i hb
    rw [reportSlot, if_neg (by simp [hb])]

/-- C10 witness: frames `tdA` and `tdB` differ in the key/p_sensor fields
and in the coordinate bytes of the nine released fingers, yet produce
identical events and reschedule decisions. -/
theorem output_determined_witness :
    reportEvents tdA = reportEvents tdB ∧
    ili2117_reschedule tdA DEFAULT_POLL_PERIOD =
      ili2117_reschedule tdB DEFAULT_POLL_PERIOD ∧
    (∀ i, slotTouch tdA (fingerAt tdA i) = false →
      reportSlot tdA i = SlotEvent.released i) :=
  output_determined tdA tdB DEFAULT_POLL_PERIOD (by decide) (by decide)
    (by decide)
    (by decide)

/-! ### C2 -/

/-- C2: after every successful read-and-decode cycle, exactly one further
read is requested after the fixed poll interval of 20 time units iff the
decoded frame's packet_id equals 0x5a (independent of checksum values and
of whether any slot is touching); for any other packet_id no further read
is requested and the scheduler returns to Idle. -/
theorem reschedule_iff (s : Sys) (bus : Nat → Option (List Nat))
    (bs : List Nat) (td : Touchdata)
    (hp : s.pending = 1) (hpp : s.poll_period = DEFAULT_POLL_PERIOD)
    (hbus : bus sizeofTouchdata = some bs) (hdec : decode bs = some td) :
    DEFAULT_POLL_PERIOD = 20 ∧
    (ili2117_work bus s.poll_period).reschedule =
      (if td.packet_id = 0x5a then some DEFAULT_POLL_PERIOD else none) ∧
    (expireStep s bus).1.pending = (if td.packet_id = 0x5a then 1 else 0) ∧
    (td.packet_id = 0x5a →
      (expireStep s bus).1.delay = DEFAULT_POLL_PERIOD) ∧
    (td.packet_id ≠ 0x5a → (expireStep s bus).1 = { s with pending := 0 }) := by
  have hw : ∀ q : Nat, ili2117_work bus q =
      { logged := false
        events := some (reportEvents td)
        reschedule := ili2117_reschedule td q } := by
    intro q
    simp only [ili2117_work, ili2117_read, hbus, hdec]
  by_cases h5 : td.packet_id = 0x5a <;>
    simp [hw, ili2117_reschedule, expireStep, hp, hpp, h5,
      schedule_delayed_work, DEFAULT_POLL_PERIOD]

/-- C2 witness: the concrete valid frame `tdA` (packet_id 0x5a) delivered
on `busA` reschedules exactly one read after 20 time units. -/
theorem reschedule_iff_witness :
    DEFAULT_POLL_PERIOD = 20 ∧
    (ili2117_work busA sysActive.poll_period).reschedule =
      (if tdA.packet_id = 0x5a then some DEFAULT_POLL_PERIOD else none) ∧
    (expireStep sysActive busA).1.pending =
      (if tdA.packet_id = 0x5a then 1 else 0) ∧
    (tdA.packet_id = 0x5a →
      (expireStep sysActive busA).1.delay = DEFAULT_POLL_PERIOD) ∧
    (tdA.packet_id ≠ 0x5a →
      (expireStep sysActive busA).1 = { sysActive with pending := 0 }) :=
  reschedule_iff sysActive busA bsA tdA rfl rfl rfl (by decide)

/-! ### C5 -/

/-- C5: when the transport read fails, the cycle is abandoned atomically:
the work logs the failure and emits no slot events and schedules no further
read; the scheduler is left Idle (nothing pending, so a later timer step is
a no-op) until the next interrupt re-arms it. -/
theorem transport_failure (s : Sys) (bus : Nat → Option (List Nat))
    (hp : s.pending = 1) (hfail : bus sizeofTouchdata = none) :
    ili2117_work bus s.poll_period =
      { logged := true, events := none, reschedule := none } ∧
    expireStep s bus = ({ s with pending := 0 }, [Obs.read, Obs.log]) ∧
    (∀ bus₂, expireStep { s with pending := 0 } bus₂ =
      ({ s with pending := 0 }, [])) ∧
    (s.irqArmed = true → (irqStep { s with pending := 0 }).1.pending = 1) := by
  have hw : ili2117_work bus s.poll_period =
      { logged := true, events := none, reschedule := none } := by
    rw [ili2117_work, ili2117_read, hfail]
  refine ⟨hw, ?_, ?_, ?_⟩
  · simp [expireStep, hp, hw]
  · intro bus₂; simp [expireStep]
  · intro ha; simp [irqStep, schedule_delayed_work, ha]

/-- C5 witness: the failure path at the concrete armed state with one
pending read and the always-failing bus. -/
theorem transport_failure_witness :
    ili2117_work busNone sysActive.poll_period =
      { logged := true, events := none, reschedule := none } ∧
    expireStep sysActive busNone =
      ({ sysActive with pending := 0 }, [Obs.read, Obs.log]) ∧
    (∀ bus₂, expireStep { sysActive with pending := 0 } bus₂ =
      ({ sysActive with pending := 0 }, [])) ∧
    (sysActive.irqArmed = true →
      (irqStep { sysActive with pending := 0 }).1.pending = 1) :=
  transport_failure sysActive busNone rfl rfl

/-! ### C8 -/

/-- C8 counterexample: the fixed frame is 43 bytes (a packed finger record
is 4 bytes: both 4-bit fields share one byte), not 53. -/
theorem frame_size_counterexample :
    sizeofTouchdata = 43 ∧ sizeofTouchdata ≠ 53 := by decide

/-- C8 (amended): the fixed frame size equals exactly 43 bytes (packet_id
1 byte + 10 finger records of 4 bytes each + one packed key/p_sensor byte +
1 checksum byte, no padding); the work function's transport read requests
exactly this size (it depends on the bus only at that length), and decode
accepts exactly this size — an undersized (or oversized) buffer decodes to
nothing, never to a partial frame. -/
theorem frame_size (bus₁ bus₂ : Nat → Option (List Nat)) (p : Nat)
    (bs bs' : List Nat)
    (hb : bus₁ sizeofTouchdata = bus₂ sizeofTouchdata)
    (hlen : bs.length ≠ sizeofTouchdata)
    (hlen' : bs'.length = sizeofTouchdata) :
    sizeofTouchdata = 1 + MAX_TOUCHES * sizeofFinger + 1 + 1 ∧
    sizeofTouchdata = 43 ∧
    ili2117_work bus₁ p = ili2117_work bus₂ p ∧
    decode bs = none ∧
    (decode bs').isSome = true := by
  refine ⟨rfl, by decide, ?_, ?_, ?_⟩
  · rw [ili2117_work, ili2117_work, ili2117_read, ili2117_read, hb]
  · rw [decode, if_neg hlen]
  · rw [decode, if_pos hlen']; rfl

/-- C8 witness: `busA` and `busB` differ at every length except
`sizeofTouchdata`, yet the work function cannot tell them apart; the empty
buffer does not decode; the 43-byte buffer `bsA` does. -/
theorem frame_size_witness :
    sizeofTouchdata = 1 + MAX_TOUCHES * sizeofFinger + 1 + 1 ∧
    sizeofTouchdata = 43 ∧
    ili2117_work busA DEFAULT_POLL_PERIOD =
      ili2117_work busB DEFAULT_POLL_PERIOD ∧
    decode [] = none ∧
    (decode bsA).isSome = true :=
  frame_size busA busB DEFAULT_POLL_PERIOD [] bsA (by decide) (by decide)
    (by decide)

/-! ### C6 -/

lemma pending_le_one_step (s : Sys) (e : Ev) (h : s.pending ≤ 1) :
    (sysStep s e).1.pending ≤ 1 := by
  cases e with
  | irq =>
    simp only [sysStep, irqStep, schedule_delayed_work]
    split
    · split <;> simp_all
    · exact h
  | expire bus =>
    simp only [sysStep, expireStep]
    split
    · exact h
    · cases hr : (ili2117_work bus s.poll_period).reschedule with
      | none => simp only [hr]; omega
      | some d =>
        simp only [hr, schedule_delayed_work]
        split <;> simp_all

/-- C6: in every reachable state of the scheduling step relation at most
one read is outstanding (`pending ≤ 1` is preserved by every step from any
state satisfying it, in particular from the probe state), and two
interrupts firing before any read executes result in exactly one read
being performed, never two. -/
theorem at_most_one_outstanding (s : Sys) (evs : List Ev)
    (bus : Nat → Option (List Nat)) (h : s.pending ≤ 1) :
    (sysRun s evs).1.pending ≤ 1 ∧
    countReads (sysRun sysInit [Ev.irq, Ev.irq, Ev.expire bus]).2 = 1 := by
  constructor
  · induction evs generalizing s with
    | nil => simpa [sysRun] using h
    | cons e rest ih =>
      simp only [sysRun]
      exact ih _ (pending_le_one_step s e h)
  · have h2 : (sysRun sysInit [Ev.irq, Ev.irq, Ev.expire bus]).2 =
        [] ++ ([] ++ ((expireStep sysActive bus).2 ++ [])) := rfl
    rw [h2]
    simp only [List.nil_append, List.append_nil]
    have h3 : (expireStep sysActive bus).2 =
        Obs.read ::
          (match (ili2117_work bus sysActive.poll_period).events with
           | some es => [Obs.emit es]
           | none => [Obs.log]) := rfl
    rw [h3]
    cases (ili2117_work bus sysActive.poll_period).events <;>
      simp [countReads, List.countP_cons, Obs.isRead]

/-- C6 witness: the invariant and the two-interrupt coalescing scenario at
the concrete probe state with the always-failing bus. -/
theorem at_most_one_outstanding_witness :
    (sysRun sysInit [Ev.irq, Ev.irq, Ev.expire busNone]).1.pending ≤ 1 ∧
    countReads (sysRun sysInit [Ev.irq, Ev.irq, Ev.expire busNone]).2 = 1 :=
  at_most_one_outstanding sysInit [Ev.irq, Ev.irq, Ev.expire busNone]
    busNone (by decide)

/-! ### C7 -/

/-- C7: every interrupt delivery while the handler is installed requests
scheduling of an immediate read with zero delay and does nothing else: no
observable read, decode or report happens in the handler, and the only
state change is the (idempotent) zero-delay schedule request. -/
theorem irq_zero_delay (s : Sys) (h : s.irqArmed = true) :
    (irqStep s).2 = [] ∧
    (s.pending = 0 → irqStep s = ({ s with pending := 1, delay := 0 }, [])) ∧
    (s.pending ≠ 0 → irqStep s = (s, [])) := by
  refine ⟨?_, ?_, ?_⟩
  · simp [irqStep, h]
  · intro h0; simp [irqStep, h, schedule_delayed_work, h0]
  · intro h0; simp [irqStep, h, schedule_delayed_work, h0]

/-- C7 witness: an interrupt at the idle probe state schedules the read at
zero delay with no other observable action. -/
theorem irq_zero_delay_witness :
    (irqStep sysInit).2 = [] ∧
    (sysInit.pending = 0 →
      irqStep sysInit = ({ sysInit with pending := 1, delay := 0 }, [])) ∧
    (sysInit.pending ≠ 0 → irqStep sysInit = (sysInit, [])) :=
  irq_zero_delay sysInit rfl

/-! ### C9 -/

lemma quiescent_run (s : Sys) (evs : List Ev)
    (hp : s.pending = 0) (ha : s.irqArmed = false) :
    sysRun s evs = (s, []) := by
  induction evs with
  | nil => rfl
  | cons e rest ih =>
    have hstep : sysStep s e = (s, []) := by
      cases e with
      | irq => simp [sysStep, irqStep, ha]
      | expire bus => simp [sysStep, expireStep, hp]
    simp only [sysRun, hstep, ih, List.nil_append]

/-- C9: teardown with a read in flight first disarms the interrupt source,
then synchronously joins the read cycle — its full decode/report output is
emitted before remove returns — and afterwards nothing is pending, the
device is freed, and no step of the system ever emits another observation. -/
theorem remove_joins (s : Sys) (bus : Nat → Option (List Nat))
    (bs : List Nat) (td : Touchdata) (hp : s.pending = 1)
    (hbus : bus sizeofTouchdata = some bs) (hdec : decode bs = some td) :
    (ili2117_i2c_remove s bus).2 = [Obs.read, Obs.emit (reportEvents td)] ∧
    (ili2117_i2c_remove s bus).1.pending = 0 ∧
    (ili2117_i2c_remove s bus).1.irqArmed = false ∧
    (ili2117_i2c_remove s bus).1.freed = true ∧
    (∀ evs, sysRun (ili2117_i2c_remove s bus).1 evs =
      ((ili2117_i2c_remove s bus).1, [])) := by
  have hw : ∀ q : Nat, ili2117_work bus q =
      { logged := false
        events := some (reportEvents td)
        reschedule := ili2117_reschedule td q } := by
    intro q
    simp only [ili2117_work, ili2117_read, hbus, hdec]
  have hr : (ili2117_i2c_remove s bus).2 =
        [Obs.read, Obs.emit (reportEvents td)] ∧
      (ili2117_i2c_remove s bus).1.pending = 0 ∧
      (ili2117_i2c_remove s bus).1.irqArmed = false ∧
      (ili2117_i2c_remove s bus).1.freed = true := by
    by_cases h5 : td.packet_id = 0x5a <;>
      simp [ili2117_i2c_remove, expireStep, hp, hw, ili2117_reschedule, h5,
        schedule_delayed_work]
  refine ⟨hr.1, hr.2.1, hr.2.2.1, hr.2.2.2, fun evs =>
    quiescent_run _ evs hr.2.1 hr.2.2.1⟩

/-- C9 witness: removing the device while the `tdA` read is in flight on
`busA` joins that cycle (its events appear in the remove output) and the
resulting state never produces another observation. -/
theorem remove_joins_witness :
    (ili2117_i2c_remove sysActive busA).2 =
      [Obs.read, Obs.emit (reportEvents tdA)] ∧
    (ili2117_i2c_remove sysActive busA).1.pending = 0 ∧
    (ili2117_i2c_remove sysActive busA).1.irqArmed = false ∧
    (ili2117_i2c_remove sysActive busA).1.freed = true ∧
    sysRun (ili2117_i2c_remove sysActive busA).1 [Ev.irq, Ev.expire busA] =
      ((ili2117_i2c_remove sysActive busA).1, []) := by
  have h := remove_joins sysActive busA bsA tdA rfl rfl (by decide)
  exact ⟨h.1, h.2.1, h.2.2.1, h.2.2.2.1, h.2.2.2.2 [Ev.irq, Ev.expire busA]⟩

end Ili2117
